import Mathlib

/-!
Verification of the RAG chatbot pipeline (Prashiskshan ML chatbot).

Shallow embedding of the query pipeline: scores are modelled as rationals
(`ℚ`), text as `String` (processed through `List Char` helpers so that every
definition evaluates by kernel reduction), external collaborators (the
embedding model, the Qdrant vector index, the Gemini REST endpoint, the
Redis session store clock/timestamps) as explicit oracle parameters, and
side effects (generative calls, auto-ingestion) as explicit effect lists.
-/

/-! ## Python text primitives

Helpers mirroring the Python string operations the source uses.  Python's
`str.strip()` and the regex class `\s` are modelled over their ASCII
whitespace set (the source only ever feeds ASCII whitespace).
-/

/-- Python whitespace (`str.strip`, regex `\s`), ASCII subset. -/
def pySpace (c : Char) : Bool :=
  c = ' ' ∨ c = '\t' ∨ c = '\n' ∨ c = '\r' ∨ c = '\x0b' ∨ c = '\x0c'

/-- Python `str.strip()` on a character list. -/
def pyStrip (s : List Char) : List Char :=
  ((s.dropWhile pySpace).reverse.dropWhile pySpace).reverse

/-- Python `str.strip()` on a string. -/
def pyStripStr (s : String) : String :=
  String.mk (pyStrip s.toList)

/-- Python `str.split(sep)` for a one-character separator (accumulator form). -/
def splitAux (sep : Char) (acc : List Char) : List Char → List (List Char)
  | [] => [acc.reverse]
  | c :: cs => if c = sep then acc.reverse :: splitAux sep [] cs else splitAux sep (c :: acc) cs

/-- Python `str.replace(ab, cd)` for two-character pattern and replacement,
left-to-right and non-overlapping exactly as `str.replace`. -/
def replPair (a b ra rb : Char) : List Char → List Char
  | [] => []
  | [c] => [c]
  | c :: d :: cs =>
    if c = a ∧ d = b then ra :: rb :: replPair a b ra rb cs
    else c :: replPair a b ra rb (d :: cs)

/-- Python list slice `l[n:]` for an `Int` index (negative indices count from
the end, clamped to the list's bounds). -/
def pyDropSlice (n : Int) (l : List α) : List α :=
  if 0 ≤ n then l.drop n.toNat else l.drop (l.length + n).toNat

/-! ## Conversation memory (`src/graph/memory.py`)

The Redis backend (`get`/`setex`/`delete` on string keys) and the in-process
fallback dict have the same observable key-value semantics, modelled as a
total map from keys to message lists where a missing key reads as `[]`
(Redis `delete` = store `[]`).  The TTL argument of `setex` only affects
expiry, outside this model.  `datetime.utcnow()` is an oracle argument. -/

/-- One stored conversation message (`{"role", "content", "timestamp"}`). -/
structure MemMessage where
  role : String
  content : String
  timestamp : String
deriving DecidableEq, Repr

/-- One entry of `get_history`'s simplified result (role and content only). -/
structure HistoryEntry where
  role : String
  content : String
deriving DecidableEq, Repr

/-- The session store: key ↦ stored message list (missing key ↦ `[]`). -/
abbrev MemStore : Type := String → List MemMessage

/-- The store with no sessions. -/
def emptyMemStore : MemStore := fun _ => []

/-- `ConversationMemory._get_redis_key`. -/
def _get_redis_key (user_id session_id : String) : String :=
  "chatbot:" ++ user_id ++ ":" ++ session_id

/-- `ConversationMemory._load_state`. -/
def _load_state (st : MemStore) (redis_key : String) : List MemMessage :=
  st redis_key

/-- `ConversationMemory._save_state`. -/
def _save_state (st : MemStore) (redis_key : String) (messages : List MemMessage) : MemStore :=
  fun k => if k = redis_key then messages else st k

/-- `ConversationMemory.add_message`: append, then trim with the Python slice
`messages[-(max_history * 2):]` whenever `len(messages) > max_history * 2`.
`max_history` is an `Int` exactly as in the source (the config reads it from
the environment, default 10, where 0 or a negative disables the limit). -/
def add_message (max_history : Int) (st : MemStore)
    (user_id session_id role content timestamp : String) : MemStore :=
  let redis_key := _get_redis_key user_id session_id
  let messages := _load_state st redis_key ++ [⟨role, content, timestamp⟩]
  let messages :=
    if (messages.length : Int) > max_history * 2 then
      pyDropSlice (-(max_history * 2)) messages
    else messages
  _save_state st redis_key messages

/-- `ConversationMemory.get_history` (role and content only). -/
def get_history (st : MemStore) (user_id session_id : String) : List HistoryEntry :=
  (_load_state st (_get_redis_key user_id session_id)).map fun m => ⟨m.role, m.content⟩

/-- `ConversationMemory.get_formatted_history`. -/
def get_formatted_history (st : MemStore) (user_id session_id : String) : String :=
  let history := get_history st user_id session_id
  if history = [] then ""
  else
    String.intercalate "\n"
      (history.map fun m =>
        (if m.role = "user" then "User" else "Assistant") ++ ": " ++ m.content)

/-- `ConversationMemory.clear_session` (Redis `delete`: the key reads `[]`). -/
def clear_session (st : MemStore) (user_id session_id : String) : MemStore :=
  fun k => if k = _get_redis_key user_id session_id then [] else st k

/-- One `add_message` request, for reasoning about arbitrary append sequences. -/
structure AppendOp where
  user_id : String
  session_id : String
  role : String
  content : String
  timestamp : String

/-- Apply a sequence of `add_message` calls in order. -/
def applyAppends (max_history : Int) (ops : List AppendOp) (st : MemStore) : MemStore :=
  ops.foldl (fun s op => add_message max_history s op.user_id op.session_id op.role op.content op.timestamp) st

/-! ## Retrieved documents and configuration (`src/config/settings.py`)

Similarity scores are Python floats in the source; every score the claims
touch is a plain decimal compared with `>=`, modelled exactly in `ℚ`
(written with `mkRat` so that every comparison evaluates by kernel
reduction; `mkRat n 100` is the rational `n/100`). -/

/-- One retrieved document as shaped by `Retriever.retrieve`:
`{'content', 'metadata', 'similarity_score'}`.  Metadata is a string-keyed
dict (values the claims read are strings), modelled as an association list
with unique keys. -/
structure Doc where
  content : String
  metadata : List (String × String)
  similarity_score : ℚ
deriving DecidableEq, Repr

/-- Python `d.get(key, '')` on a string dict. -/
def dict_get (d : List (String × String)) (key : String) : String :=
  ((d.find? fun p => p.1 = key).map Prod.snd).getD ""

/-- `settings.SIMILARITY_THRESHOLD = 0.50`. -/
def SIMILARITY_THRESHOLD : ℚ := mkRat 50 100

/-- `settings.EXACT_MATCH_THRESHOLD = 0.90`. -/
def EXACT_MATCH_THRESHOLD : ℚ := mkRat 90 100

/-- `settings.MAX_CONVERSATION_HISTORY`: `int(os.getenv(..., "10"))`, an `Int`
whose default (no environment override) is 10. -/
def MAX_CONVERSATION_HISTORY : Int := 10

/-- `ScoreThreshold.__init__`'s own keyword default (`threshold: float = 0.55`).
The only construction site, `RAGChatbot._initialize_components`, overrides it
with the config value, see `RAGChatbot_similarity_threshold`. -/
def ScoreThreshold_init_default : ℚ := mkRat 55 100

/-- `get_config()["similarity_threshold"]`. -/
def get_config_similarity_threshold : ℚ := SIMILARITY_THRESHOLD

/-- The threshold of the `ScoreThreshold` instance the pipeline runs with:
`RAGChatbot._initialize_components` passes
`ScoreThreshold(threshold=self.config["similarity_threshold"])`. -/
def RAGChatbot_similarity_threshold : ℚ := get_config_similarity_threshold

/-! ## Score validator (`src/retrieval/score_threshold.py`) -/

/-- `ScoreThreshold.filter_by_threshold`: keep documents whose
`similarity_score` (`.get('similarity_score', 0)`; the field is always
present in documents shaped by the retriever) is `>= threshold`. -/
def filter_by_threshold (threshold : ℚ) (retrieved_docs : List Doc) : List Doc :=
  retrieved_docs.filter fun doc => decide (threshold ≤ doc.similarity_score)

/-- `ScoreThreshold.validate_retrieval`: `len(filtered_docs) > 0`. -/
def validate_retrieval (threshold : ℚ) (retrieved_docs : List Doc) : Bool :=
  decide (0 < (filter_by_threshold threshold retrieved_docs).length)

/-! ## Response sanitation (`ChatbotGraph._clean_response`, `src/graph/build_graph.py`)

The three regex passes are embedded exactly:
1. drop the lines matching `^\s*(Intent|Entity):\s*` (case-insensitive),
   join with newlines, `strip()`;
2. `re.sub(r"\b(Intent|Entity):\s*[^\n]+\n?", '', ..., re.IGNORECASE)` with
   Python's backtracking semantics (the greedy `\s*` gives characters back
   to `[^\n]+` when everything after the label is whitespace);
3. `re.sub(r"\n{3,}", '\n\n', ...)`, then `strip()`.
Word characters (`\b`, `\w`) are modelled over ASCII, which covers every
string the pipeline builds the pass's input from. -/

/-- Python regex word character (`\w`), ASCII subset. -/
def isWordChar (c : Char) : Bool :=
  c.isAlpha ∨ c.isDigit ∨ c = '_'

/-- Case-insensitive prefix test against an already-lowercase pattern. -/
def startsWithCI : List Char → List Char → Bool
  | [], _ => true
  | _ :: _, [] => false
  | p :: ps, c :: cs => p = c.toLower ∧ startsWithCI ps cs

/-- Does a line match `^\s*(Intent|Entity):\s*` (case-insensitive)?  The
trailing `\s*` always matches, so the test is: after leading whitespace the
line starts with `intent:` or `entity:`. -/
def isLabelLine (line : List Char) : Bool :=
  let rest := line.dropWhile pySpace
  startsWithCI "intent:".toList rest ∨ startsWithCI "entity:".toList rest

/-- Pass 1 of `_clean_response`: split on newlines, drop label lines, join,
`strip()`. -/
def cleanStage1 (s : List Char) : List Char :=
  pyStrip (List.intercalate ['\n'] ((splitAux '\n' [] s).filter fun l => ¬ isLabelLine l))

/-- How many characters `\s*[^\n]+\n?` consumes at the head of `cs` under
Python's greedy backtracking, or `none` when it cannot match (every
remaining character is a newline). -/
def labelTailMatch (cs : List Char) : Option Nat :=
  let w := cs.takeWhile pySpace
  let rest := cs.drop w.length
  if rest.length ≠ 0 then
    -- `\s*` keeps its maximal run; the next character is not whitespace,
    -- so `[^\n]+` runs to the end of the line and `\n?` may eat one newline.
    let line := rest.takeWhile fun c => c ≠ '\n'
    let rest2 := rest.drop line.length
    some (w.length + line.length + if rest2.length ≠ 0 then 1 else 0)
  else
    -- Only whitespace remains: `[^\n]+` must take the run ending at the last
    -- non-newline whitespace character; after it `\n?` may eat one newline.
    if w.all fun c => c = '\n' then none
    else
      let b := (w.reverse.takeWhile fun c => c = '\n').length
      some ((w.length - b) + if b ≠ 0 then 1 else 0)

/-- The word-boundary test `\b` before a word character: the previous
character (if any) is not a word character. -/
def atBoundary : Option Char → Bool
  | none => true
  | some p => ¬ isWordChar p

/-- Pass 2 of `_clean_response`: delete every match of
`\b(Intent|Entity):\s*[^\n]+\n?` (case-insensitive), scanning left to right.
`prev` is the character before the scan position (`none` at the start); after
a removed match that character is always a newline or the input is exhausted.
`fuel` bounds the recursion (any value `≥` the input length is exact). -/
def cleanStage2 (fuel : Nat) (prev : Option Char) (s : List Char) : List Char :=
  match fuel, s with
  | 0, rest => rest
  | _ + 1, [] => []
  | fuel + 1, c :: cs =>
    if atBoundary prev
        ∧ (startsWithCI "intent:".toList (c :: cs) ∨ startsWithCI "entity:".toList (c :: cs)) then
      match labelTailMatch ((c :: cs).drop 7) with
      | some n => cleanStage2 fuel (some '\n') ((c :: cs).drop (7 + n))
      | none => c :: cleanStage2 fuel (some c) cs
    else c :: cleanStage2 fuel (some c) cs

/-- Pass 3 of `_clean_response`: `re.sub(r"\n{3,}", '\n\n', ...)` — each
maximal run of three or more newlines becomes exactly two.  `run` counts the
newlines read but not yet emitted. -/
def cleanStage3 (run : Nat) : List Char → List Char
  | [] => if 3 ≤ run then ['\n', '\n'] else List.replicate run '\n'
  | c :: cs =>
    if c = '\n' then cleanStage3 (run + 1) cs
    else (if 3 ≤ run then ['\n', '\n'] else List.replicate run '\n') ++ c :: cleanStage3 0 cs

/-- `ChatbotGraph._clean_response`. -/
def _clean_response (response : String) : String :=
  if response = "" then response
  else
    let s1 := cleanStage1 response.toList
    let s2 := cleanStage2 s1.length none s1
    String.mk (pyStrip (cleanStage3 0 s2))

/-! ## Gemini LLM adapter (`src/llm/gemini_llm.py`)

`GeminiLLM._call_api` performs one REST call; everything the network and the
remote model decide is collected in `ApiOutcome`, the exhaustive case split
the function's own control flow makes over the response (each constructor is
one branch of `_call_api`).  The function then either returns the model's
text (stripped) or one of the fixed user-facing fallback strings. -/

/-- `prompts.GEMINI_SYSTEM_PROMPT` (verbatim). -/
def GEMINI_SYSTEM_PROMPT : String :=
  "You are an intelligent domain-aware assistant specializing in student education, programming, and career development.\n\nYour primary goal is to answer the user's question correctly and comprehensively.\n\nRULES:\n\n1. Understand the user's intent internally, but DO NOT mention \"Intent:\" or \"Entity:\" in your response.\n   - Answer directly and naturally without labeling intents or entities.\n\n2. NEVER refuse to answer. Always attempt to provide useful information.\n   - Use your knowledge to give accurate, helpful responses.\n   - If the question is about a well-known topic, provide a comprehensive answer.\n\n3. Treat different phrasings of the same question as equivalent.\n   - Focus on the core intent, not the exact wording.\n\n4. For broad questions: Provide an overview covering key aspects.\n5. For specific questions: Answer precisely and concisely.\n\n6. Maintain a professional, factual, and educational tone.\n   - Do not use emojis.\n   - Be clear and structured.\n   - Use examples when they add clarity.\n\n7. Focus on:\n   - Accurate technical information\n   - Clear explanations suitable for students\n   - Practical, actionable advice\n   - Industry-standard practices\n\nYour success is measured by accuracy, clarity, and helpfulness."

/-- The branch `_call_api` ends up in, decided by the HTTP layer and the
response's JSON shape: non-200 status; empty JSON; no `candidates`; candidate
without `content` (with its `finishReason`); `content` without `parts` (with
its `finishReason`); empty `parts` list; the text of `parts[0]` (possibly
empty after `strip()`); or a raised `Timeout` / `RequestException` /
`KeyError` / other exception. -/
inductive ApiOutcome where
  | httpError (status : Nat) (body : String)
  | emptyJson
  | noCandidates
  | noContent (finishReason : String)
  | noParts (finishReason : String)
  | emptyPartsList
  | okText (text : String)
  | timeout
  | requestException (msg : String)
  | keyError (msg : String)
  | otherException (msg : String)
deriving DecidableEq, Repr

/-- `GeminiLLM._call_api`: map the call's outcome to the returned string. -/
def _call_api : ApiOutcome → String
  | .httpError _ _ =>
      "Oops! I'm having trouble connecting to my knowledge base right now. 🤔 Could you try asking again in a moment?"
  | .emptyJson =>
      "Hmm, I got a blank response. Let me try to help you differently - could you rephrase your question?"
  | .noCandidates =>
      "I'm having a bit of trouble processing that right now. 😅 Mind trying a different question?"
  | .noContent _ =>
      "I encountered an issue processing that. Could you try rephrasing your question?"
  | .noParts finishReason =>
      if finishReason = "MAX_TOKENS" then
        "The response was too long. Could you ask a more specific question?"
      else if finishReason = "SAFETY" then
        "I cannot provide that information due to safety guidelines. Please rephrase your question."
      else
        "I encountered an issue generating a response. Could you try rephrasing your question?"
  | .emptyPartsList =>
      "I got your question but couldn't generate a response. Could you try asking differently?"
  | .okText t =>
      let text := pyStripStr t
      if text = "" then
        "I got your question but couldn't generate a good answer. 🤷 Want to try asking something else?"
      else text
  | .timeout =>
      "Whoa, that's taking too long! ⏰ The connection timed out. Mind trying again?"
  | .requestException _ =>
      "I'm having network issues connecting to my brain! 🌐 Try again in a sec?"
  | .keyError _ =>
      "Got a weird response format! 🤨 Let me know if this keeps happening, but for now, try another question?"
  | .otherException _ =>
      "Something unexpected happened! 😬 But don't worry - try asking me something else!"

/-- `GeminiLLM.generate_response`'s prompt (history-only: no retrieved
context anywhere in it). -/
def generate_response_prompt (question conversation_history : String) : String :=
  if conversation_history ≠ "" then
    GEMINI_SYSTEM_PROMPT ++ "\n\n" ++ conversation_history ++ "\n\nUser Question: " ++ question ++ "\n\nAssistant:"
  else
    GEMINI_SYSTEM_PROMPT ++ "\n\nUser Question: " ++ question ++ "\n\nAssistant:"

/-- `GeminiLLM.generate_rag_answer`'s prompt (retrieved context included). -/
def generate_rag_answer_prompt (context question conversation_history : String) : String :=
  if conversation_history ≠ "" then
    GEMINI_SYSTEM_PROMPT ++ "\n\n" ++ conversation_history ++ "\n\nRelevant Context:\n" ++ context
      ++ "\n\nUser Question: " ++ question ++ "\n\nAssistant:"
  else
    GEMINI_SYSTEM_PROMPT ++ "\n\nRelevant Context:\n" ++ context
      ++ "\n\nUser Question: " ++ question ++ "\n\nAssistant:"

/-! ## Retriever adapter (`src/retrieval/retriever.py`)

`Retriever.retrieve` runs inside one `try/except Exception: return []`.  The
three steps that can raise — query preprocessing, `generate_embedding`, and
the Qdrant `query_points` call — are modelled as `Except`-valued oracles
(`.error` = that step raised).  The preprocessing result is the pair
`(processed['normalized'], processed['keyword_query'])` that `retrieve`
actually reads.  Embedding vectors are opaque (`List ℚ`).  The function is
total: no exception escapes, every failure path returns `[]`. -/

/-- An embedding vector (opaque to the pipeline). -/
abbrev Embedding : Type := List ℚ

/-- One point returned by Qdrant `query_points`: payload plus score. -/
structure SearchHit where
  payload : List (String × String)
  score : ℚ
deriving DecidableEq, Repr

/-- `search_query = keyword_query if keyword_query else normalized`. -/
def retrieve_search_query (normalized keyword_query : String) : String :=
  if keyword_query ≠ "" then keyword_query else normalized

/-- `Retriever.retrieve`.  `top_k` is the optional per-call override of the
constructor's default (`self.top_k`); `pre`, `embed` and `search` are the
fallible steps; a hit's payload is split into `content` (popped) and the
remaining metadata. -/
def retrieve (query : String) (top_k : Option Nat) (self_top_k : Nat)
    (pre : Except String (String × String))
    (embed : String → Except String Embedding)
    (search : Embedding → Nat → Except String (List SearchHit)) : List Doc :=
  if query = "" then []
  else
    let k := top_k.getD self_top_k
    match pre with
    | .error _ => []
    | .ok (normalized, keyword_query) =>
      match embed (retrieve_search_query normalized keyword_query) with
      | .error _ => []
      | .ok query_embedding =>
        match search query_embedding k with
        | .error _ => []
        | .ok search_results =>
          search_results.map fun result =>
            { content := dict_get result.payload "content"
              metadata := result.payload.filter fun kv => kv.1 ≠ "content"
              similarity_score := result.score }

/-- `Retriever.format_retrieved_context`. -/
def format_retrieved_context (retrieved_docs : List Doc) : String :=
  if retrieved_docs = [] then ""
  else
    String.intercalate "\n---\n"
      (retrieved_docs.map fun doc =>
        let metadata := doc.metadata
        let company := ((metadata.find? fun p => p.1 = "company").map Prod.snd).getD "Unknown"
        let doc_type := ((metadata.find? fun p => p.1 = "document_type").map Prod.snd).getD "Unknown"
        let source := ((metadata.find? fun p => p.1 = "source").map Prod.snd).getD "Unknown"
        "[Company]: " ++ company ++ "\n[Document Type]: " ++ doc_type ++ "\n[Source]: " ++ source
          ++ "\n\nContent:\n" ++ doc.content ++ "\n")

/-! ## Auto-ingestor (`Retriever.ingest_qa_pair`)

The Qdrant store of generated Q&A entries is modelled as the list of stored
points; the duplicate-check `query_points` call (cosine scores against the
black-box embedding space) is an `Except`-valued oracle, `.error` being the
inner `except` branch that logs a warning and proceeds with ingestion.
`upsert_ok` is the upsert call's fate (`false` = it raised; the outer
`except` then returns `False`).  The `IngEffect` trace records which external
calls were made.  The fresh random UUID is not modelled (no claim reads it). -/

/-- One stored generated-Q&A point (its payload). -/
structure CachedPoint where
  payload : List (String × String)
deriving DecidableEq, Repr

/-- External calls `ingest_qa_pair` makes. -/
inductive IngEffect where
  | search
  | upsert
deriving DecidableEq, Repr

/-- The keyword default `similarity_threshold: float = 0.95`. -/
def ingest_dedup_default : ℚ := mkRat 95 100

/-- The point `ingest_qa_pair` builds for a new Q&A pair. -/
def mkQAPoint (question answer : String) : CachedPoint :=
  { payload :=
      [("content", "Question: " ++ question ++ "\n\nAnswer: " ++ answer),
       ("document_type", "Generated Q&A"),
       ("company", "General Knowledge"),
       ("source", "Gemini LLM"),
       ("question", question),
       ("answer", answer)] }

/-- `Retriever.ingest_qa_pair`: returns the store after the call, the boolean
result, and the trace of external calls. -/
def ingest_qa_pair (store : List CachedPoint) (question answer : String)
    (similarity_threshold : ℚ)
    (dup_search : Except String (List SearchHit)) (upsert_ok : Bool) :
    List CachedPoint × Bool × List IngEffect :=
  if question = "" ∨ answer = "" then (store, false, [])
  else
    let is_dup :=
      match dup_search with
      | .ok search_results =>
          search_results.any fun result => decide (similarity_threshold ≤ result.score)
      | .error _ => false   -- duplicate check failed: proceed with ingestion
    if is_dup then (store, true, [.search])
    else if upsert_ok then (store ++ [mkQAPoint question answer], true, [.search, .upsert])
    else (store, false, [.search, .upsert])

/-! ## Pipeline state machine (`src/graph/nodes.py`, `src/graph/build_graph.py`)

`ChatbotState` carries the fields the nodes read and write.  The LangGraph
wiring is the fixed acyclic topology
`START → route → (retrieve → validate → rag_answer | external_knowledge) → memory → END`,
with the conditional edge `should_use_rag` choosing on `pipeline == "RAG"`.
`RouteRules.route_query` classifies an intent (informational only; the
classifier is the oracle `classify_intent`) and always returns
`pipeline = "RAG"`.  Side effects are returned as an `Effect` list: each
Gemini REST call (with its full prompt) and each auto-ingest invocation
(with its question/answer arguments). -/

/-- Observable side effects of one pipeline run. -/
inductive Effect where
  | llmCall (prompt : String)
  | ingestCall (question answer : String)
deriving DecidableEq, Repr

/-- Is an effect a Gemini call? -/
def isLlmCall : Effect → Bool
  | .llmCall _ => true
  | _ => false

/-- Is an effect an auto-ingest invocation? -/
def isIngestCall : Effect → Bool
  | .ingestCall _ _ => true
  | _ => false

/-- The `ChatbotState` fields the nodes use (`src/graph/state.py`). -/
structure ChatbotState where
  query : String
  user_id : String
  session_id : String
  formatted_history : String
  intent : String
  pipeline : String
  retrieved_docs : List Doc
  retrieval_valid : Bool
  filtered_docs : List Doc
  answer : Option String
deriving Repr

/-- `GraphNodes.route_node` with `RouteRules.route_query`: record the
classified intent, and always route to the RAG pipeline
(`"pipeline": "RAG"  # Always start with RAG`). -/
def route_node (classify_intent : String → String) (state : ChatbotState) : ChatbotState :=
  { state with intent := classify_intent state.query, pipeline := "RAG" }

/-- `GraphNodes.retrieve_node`: `retrieved_docs = retriever.retrieve(query)`.
`retrieval` is the behaviour of `Retriever.retrieve` for this run (its own
oracles already applied; `retrieve_total` below relates the two). -/
def retrieve_node (retrieval : String → List Doc) (state : ChatbotState) : ChatbotState :=
  { state with retrieved_docs := retrieval state.query }

/-- `GraphNodes.validate_node`. -/
def validate_node (threshold : ℚ) (state : ChatbotState) : ChatbotState :=
  let is_valid := validate_retrieval threshold state.retrieved_docs
  if is_valid then
    { state with retrieval_valid := is_valid,
                 filtered_docs := filter_by_threshold threshold state.retrieved_docs }
  else
    { state with retrieval_valid := is_valid, filtered_docs := [] }

/-- The scan of `rag_answer_node` over the filtered documents: the first
cached Q&A document (`document_type == 'Generated Q&A'`,
`similarity >= EXACT_MATCH_THRESHOLD`) whose stored `answer` is non-empty is
returned; a qualifying document with an empty stored answer is skipped and
the scan continues. -/
def rag_cached_scan : List Doc → Option String
  | [] => none
  | doc :: rest =>
    let similarity := doc.similarity_score
    let doc_type := dict_get doc.metadata "document_type"
    if doc_type = "Generated Q&A" ∧ EXACT_MATCH_THRESHOLD ≤ similarity then
      let cached_answer := dict_get doc.metadata "answer"
      if cached_answer ≠ "" then some cached_answer
      else rag_cached_scan rest
    else rag_cached_scan rest

/-- `GraphNodes.external_knowledge_node`: generate from conversation history
only, set the answer, then auto-ingest the Q&A pair; the ingest call's
outcome (`ingest_outcome`: raised exception or returned boolean) is only
logged — it does not touch the state. -/
def external_knowledge_node (api : String → ApiOutcome) (_ingest_outcome : Except String Bool)
    (state : ChatbotState) : ChatbotState × List Effect :=
  let prompt := generate_response_prompt state.query state.formatted_history
  let gemini_response := _call_api (api prompt)
  ({ state with answer := some gemini_response },
   [.llmCall prompt, .ingestCall state.query gemini_response])

/-- `GraphNodes.rag_answer_node`: fall back to `external_knowledge_node` when
retrieval was invalid; otherwise return the first usable cached answer, or
generate with the formatted context. -/
def rag_answer_node (api : String → ApiOutcome) (ingest_outcome : Except String Bool)
    (state : ChatbotState) : ChatbotState × List Effect :=
  if state.retrieval_valid = false then
    external_knowledge_node api ingest_outcome state
  else
    match rag_cached_scan state.filtered_docs with
    | some cached_answer => ({ state with answer := some cached_answer }, [])
    | none =>
      let context := format_retrieved_context state.filtered_docs
      let prompt := generate_rag_answer_prompt context state.query state.formatted_history
      let answer := _call_api (api prompt)
      ({ state with answer := some answer }, [.llmCall prompt])

/-- `GraphNodes.memory_node`: append the user and assistant turns when both
query and answer are non-empty (`if query and answer`). -/
def memory_node (max_history : Int) (now : String) (store : MemStore)
    (state : ChatbotState) : MemStore :=
  let query := state.query
  let answer := state.answer.getD ""
  if query ≠ "" ∧ answer ≠ "" then
    let store := add_message max_history store state.user_id state.session_id "user" query now
    add_message max_history store state.user_id state.session_id "assistant" answer now
  else store

/-- `build_graph`'s conditional edge `should_use_rag`. -/
def should_use_rag (state : ChatbotState) : String :=
  if state.pipeline = "RAG" then "rag_path" else "external_path"

/-- `ChatbotGraph.execute`: load the history, run the graph
(`route`, then the conditional edge, then the chosen path, then `memory`),
extract the answer and sanitize it with `_clean_response`.  Returns the
cleaned answer, the session store after `memory_node`, and the effect
trace. -/
def ChatbotGraph_execute (classify_intent : String → String) (retrieval : String → List Doc)
    (api : String → ApiOutcome) (ingest_outcome : Except String Bool)
    (threshold : ℚ) (max_history : Int) (now : String) (store : MemStore)
    (query user_id session_id : String) : String × MemStore × List Effect :=
  let formatted_history := get_formatted_history store user_id session_id
  let initial_state : ChatbotState :=
    { query := query, user_id := user_id, session_id := session_id,
      formatted_history := formatted_history, intent := "", pipeline := "",
      retrieved_docs := [], retrieval_valid := false, filtered_docs := [],
      answer := none }
  let state := route_node classify_intent initial_state
  let (state, effects) :=
    if should_use_rag state = "rag_path" then
      let state := retrieve_node retrieval state
      let state := validate_node threshold state
      rag_answer_node api ingest_outcome state
    else
      external_knowledge_node api ingest_outcome state
  let store := memory_node max_history now store state
  let answer := state.answer.getD "I apologize, but I couldn't generate a response."
  (_clean_response answer, store, effects)

/-- `RAGChatbot.query` (`src/main.py`): the input guards, then
`ChatbotGraph.execute` with the wired-in config threshold and history cap. -/
def RAGChatbot_query (classify_intent : String → String) (retrieval : String → List Doc)
    (api : String → ApiOutcome) (ingest_outcome : Except String Bool)
    (now : String) (store : MemStore)
    (user_query user_id session_id : String) : String × MemStore × List Effect :=
  if user_query = "" ∨ pyStripStr user_query = "" then
    ("Please provide a valid question.", store, [])
  else if user_id = "" ∨ session_id = "" then
    ("User ID and session ID are required.", store, [])
  else
    ChatbotGraph_execute classify_intent retrieval api ingest_outcome
      RAGChatbot_similarity_threshold MAX_CONVERSATION_HISTORY now store
      user_query user_id session_id

/-! ## Streaming dispatcher (`src/chatbot_service_sse.py`)

`generate_sse_response` starts a worker thread and polls a one-slot result
queue every 2 seconds while the worker is alive.  The interleaving the
scheduler produces is captured by two inputs:
* `polls` — one entry per iteration of the `while worker.is_alive()` loop:
  `none` when `result_queue.get(timeout=2.0)` raised `queue.Empty`, `some r`
  when it returned the worker's result;
* `final_queue` — the queue's content at the moment the loop observes the
  worker dead (the `get_nowait` after the loop), `none` = empty.
In a real run the worker puts exactly one result, so at most one `some`
occurs across both inputs; the safety theorems below hold for every
interleaving regardless.  The pacing `time.sleep` calls only shape timing. -/

/-- What the worker thread put on the queue. -/
inductive WorkerResult where
  | success (response : String)
  | errorRes (msg : String)
deriving DecidableEq, Repr

/-- One server-sent event (`data: {"type": ...}`). -/
inductive SseEvent where
  | start
  | keepalive
  | chunk (content : String)
  | done
  | error (msg : String)
deriving DecidableEq, Repr

/-- Is an event terminal (`done` or `error`)? -/
def isTerminal : SseEvent → Bool
  | .done => true
  | .error _ => true
  | _ => false

/-- Is an event a keepalive? -/
def isKeepalive : SseEvent → Bool
  | .keepalive => true
  | _ => false

/-- Is an event `start`? -/
def isStart : SseEvent → Bool
  | .start => true
  | _ => false

/-- The accumulator loop of `chunk_text`: sentences still to place, and the
current chunk under construction. -/
def chunkGo (chunk_size : Nat) : List (List Char) → List Char → List String
  | [], current_chunk =>
    if pyStrip current_chunk ≠ [] then [String.mk (pyStrip current_chunk)] else []
  | sentence :: rest, current_chunk =>
    let sentence := pyStrip sentence
    if sentence = [] then chunkGo chunk_size rest current_chunk
    else if current_chunk ≠ [] ∧ chunk_size < current_chunk.length + sentence.length then
      String.mk current_chunk :: chunkGo chunk_size rest (sentence ++ [' '])
    else chunkGo chunk_size rest (current_chunk ++ sentence ++ [' '])

/-- `chunk_text`: mark sentence ends (`'? ' → '?|'`, `'! ' → '!|'`,
`'. ' → '.|'`), split on `'|'`, pack sentences into chunks of about
`chunk_size` characters. -/
def chunk_text (text : String) (chunk_size : Nat) : List String :=
  if text = "" then []
  else
    let sentences :=
      splitAux '|' []
        (replPair '.' ' ' '.' '|' (replPair '!' ' ' '!' '|' (replPair '?' ' ' '?' '|' text.toList)))
    chunkGo chunk_size sentences []

/-- `'type': 'chunk'` events for a response. -/
def chunkEvents (response : String) : List SseEvent :=
  (chunk_text response 30).map SseEvent.chunk

/-- The fallback chunk for a blank successful result (in-loop path only). -/
def sseEmptyResultChunk : String :=
  "I apologize, but I could not generate a response. Please try rephrasing your question."

/-- The timeout error message. -/
def sseTimeoutMsg : String := "Request timeout - please try again"

/-- The polling loop of `generate_sse_response` (everything after the
`start` event), with `keepalive_count` as accumulator.  The post-loop branch
(`polls` exhausted = worker observed dead) replays
`if not result_queue.empty(): ...` — note it emits nothing at all for an
empty queue or an empty (falsy) successful result. -/
def sseLoop (keepalive_count : Nat) :
    List (Option WorkerResult) → Option WorkerResult → List SseEvent
  | [], final_queue =>
    match final_queue with
    | none => []
    | some (.success result) =>
        if result ≠ "" then chunkEvents result ++ [.done] else []
    | some (.errorRes msg) => [.error msg]
  | none :: rest, final_queue =>
    if keepalive_count + 1 ≤ 15 then
      .keepalive :: sseLoop (keepalive_count + 1) rest final_queue
    else
      [.error sseTimeoutMsg]
  | some (.errorRes msg) :: _, _ => [.error msg]
  | some (.success result) :: _, _ =>
    (if result ≠ "" ∧ pyStripStr result ≠ "" then chunkEvents result
     else [.chunk sseEmptyResultChunk]) ++ [.done]

/-- `generate_sse_response`: the `start` event, then the polling loop. -/
def generate_sse_response (polls : List (Option WorkerResult))
    (final_queue : Option WorkerResult) : List SseEvent :=
  .start :: sseLoop 0 polls final_queue

/-! ## Claim C10: empty question or answer is rejected before any external call -/

/-- C10: for every call `ingest_qa_pair(question, answer)` where `question` or
`answer` is empty, the call returns `False`, performs no duplicate-check
search and no write to the retrieval store. -/
theorem claim_C10_ingest_empty_input (store : List CachedPoint) (question answer : String)
    (similarity_threshold : ℚ) (dup_search : Except String (List SearchHit)) (upsert_ok : Bool)
    (h : question = "" ∨ answer = "") :
    ingest_qa_pair store question answer similarity_threshold dup_search upsert_ok
      = (store, false, []) := by
  simp [ingest_qa_pair, h]

/-- Witness for C10 at `question = ""`. -/
theorem claim_C10_witness :
    ("" = "" ∨ "hello" = "") ∧
      ingest_qa_pair [] "" "hello" ingest_dedup_default (.ok []) true = ([], false, []) :=
  ⟨by decide, claim_C10_ingest_empty_input [] "" "hello" ingest_dedup_default (.ok []) true
    (by decide)⟩

/-! ## Claim C3: ingest deduplication is idempotent -/

/-- C3: `ingest(q, a)` twice, where the second call's duplicate-check search
finds the first stored entry with score `≥ 0.95`, leaves exactly one stored
entry; the second call performs no write (no upsert effect, store unchanged)
and still returns `true`. -/
theorem claim_C3_ingest_idempotent (question answer : String)
    (hits1 hits2 : List SearchHit) (upsert_ok2 : Bool)
    (hq : question ≠ "") (ha : answer ≠ "")
    (h1 : ∀ r ∈ hits1, r.score < ingest_dedup_default)
    (h2 : ∃ r ∈ hits2, ingest_dedup_default ≤ r.score) :
    (ingest_qa_pair [] question answer ingest_dedup_default (.ok hits1) true).1
        = [mkQAPoint question answer] ∧
    (ingest_qa_pair [] question answer ingest_dedup_default (.ok hits1) true).2.1 = true ∧
    (ingest_qa_pair [mkQAPoint question answer] question answer ingest_dedup_default
        (.ok hits2) upsert_ok2).1 = [mkQAPoint question answer] ∧
    (ingest_qa_pair [mkQAPoint question answer] question answer ingest_dedup_default
        (.ok hits2) upsert_ok2).2.1 = true ∧
    IngEffect.upsert ∉ (ingest_qa_pair [mkQAPoint question answer] question answer
        ingest_dedup_default (.ok hits2) upsert_ok2).2.2 := by
  have hno : (hits1.any fun r => decide (ingest_dedup_default ≤ r.score)) = false := by
    simp only [List.any_eq_false, decide_eq_true_eq]
    intro r hr
    exact not_le.mpr (h1 r hr)
  have hyes : (hits2.any fun r => decide (ingest_dedup_default ≤ r.score)) = true := by
    simp only [List.any_eq_true, decide_eq_true_eq]
    exact h2
  refine ⟨?_, ?_, ?_, ?_, ?_⟩ <;>
    simp [ingest_qa_pair, hq, ha, hno, hyes]

/-- Witness for C3: a first call against an empty store (duplicate check sees
nothing), then a second call whose duplicate check returns the stored entry
at score 0.96. -/
theorem claim_C3_witness :
    ("q1" ≠ "" ∧ "a1" ≠ "" ∧
      (∀ r ∈ ([] : List SearchHit), r.score < ingest_dedup_default) ∧
      (∃ r ∈ [({ payload := (mkQAPoint "q1" "a1").payload, score := mkRat 96 100 } : SearchHit)],
        ingest_dedup_default ≤ r.score)) ∧
    (ingest_qa_pair [] "q1" "a1" ingest_dedup_default (.ok []) true).1
        = [mkQAPoint "q1" "a1"] ∧
    (ingest_qa_pair [] "q1" "a1" ingest_dedup_default (.ok []) true).2.1 = true ∧
    (ingest_qa_pair [mkQAPoint "q1" "a1"] "q1" "a1" ingest_dedup_default
        (.ok [{ payload := (mkQAPoint "q1" "a1").payload, score := mkRat 96 100 }])
        true).1 = [mkQAPoint "q1" "a1"] ∧
    (ingest_qa_pair [mkQAPoint "q1" "a1"] "q1" "a1" ingest_dedup_default
        (.ok [{ payload := (mkQAPoint "q1" "a1").payload, score := mkRat 96 100 }])
        true).2.1 = true ∧
    IngEffect.upsert ∉ (ingest_qa_pair [mkQAPoint "q1" "a1"] "q1" "a1" ingest_dedup_default
        (.ok [{ payload := (mkQAPoint "q1" "a1").payload, score := mkRat 96 100 }])
        true).2.2 :=
  ⟨⟨by decide, by decide, by decide, by decide⟩,
    claim_C3_ingest_idempotent "q1" "a1" []
      [{ payload := (mkQAPoint "q1" "a1").payload, score := mkRat 96 100 }] true
      (by decide) (by decide) (by decide) (by decide)⟩

/-! ## Claim C7: `retrieve` fails closed -/

/-- C7: `retrieve` returns `[]` (and raises nothing — it is a total function)
for an empty query and on failure of preprocessing, of embedding, or of the
vector-index call. -/
theorem claim_C7_retrieve_fails_closed :
    (∀ top_k self_top_k pre embed search,
      retrieve "" top_k self_top_k pre embed search = []) ∧
    (∀ query top_k self_top_k msg embed search,
      retrieve query top_k self_top_k (.error msg) embed search = []) ∧
    (∀ query top_k self_top_k normalized keyword_query embed search msg,
      embed (retrieve_search_query normalized keyword_query) = .error msg →
      retrieve query top_k self_top_k (.ok (normalized, keyword_query)) embed search = []) ∧
    (∀ query top_k self_top_k normalized keyword_query embed search msg embedding,
      embed (retrieve_search_query normalized keyword_query) = .ok embedding →
      search embedding (top_k.getD self_top_k) = .error msg →
      retrieve query top_k self_top_k (.ok (normalized, keyword_query)) embed search = []) := by
  refine ⟨?_, ?_, ?_, ?_⟩
  · intro top_k self_top_k pre embed search
    simp [retrieve]
  · intro query top_k self_top_k msg embed search
    by_cases hq : query = "" <;> simp [retrieve, hq]
  · intro query top_k self_top_k normalized keyword_query embed search msg hembed
    by_cases hq : query = "" <;> simp [retrieve, hq, hembed]
  · intro query top_k self_top_k normalized keyword_query embed search msg embedding
      hembed hsearch
    by_cases hq : query = "" <;> simp [retrieve, hq, hembed, hsearch]

/-- Witness for C7: an embedding service that is down yields `[]`. -/
theorem claim_C7_witness :
    (fun _ : String => (.error "connection refused" : Except String Embedding))
        (retrieve_search_query "google internship" "google internship") = .error "connection refused" ∧
    retrieve "What about Google internship?" none 5 (.ok ("google internship", "google internship"))
      (fun _ => .error "connection refused") (fun _ _ => .ok []) = [] :=
  ⟨rfl, claim_C7_retrieve_fails_closed.2.2.1 "What about Google internship?" none 5
    "google internship" "google internship" (fun _ => .error "connection refused")
    (fun _ _ => .ok []) "connection refused" rfl⟩

/-! ## Claim C4: conversation history is capped and trimmed FIFO -/

/-- `add_message` at the key it writes. -/
theorem add_message_self (m : Int) (st : MemStore) (u s role content ts : String) :
    _load_state (add_message m st u s role content ts) (_get_redis_key u s)
      = (if ((_load_state st (_get_redis_key u s) ++ [(⟨role, content, ts⟩ : MemMessage)]).length : Int) > m * 2 then
           pyDropSlice (-(m * 2)) (_load_state st (_get_redis_key u s) ++ [(⟨role, content, ts⟩ : MemMessage)])
         else _load_state st (_get_redis_key u s) ++ [(⟨role, content, ts⟩ : MemMessage)]) := by
  simp [add_message, _save_state, _load_state]

/-- `add_message` leaves every other key unchanged. -/
theorem add_message_other (m : Int) (st : MemStore) (u s role content ts k : String)
    (hk : k ≠ _get_redis_key u s) :
    _load_state (add_message m st u s role content ts) k = _load_state st k := by
  simp [add_message, _save_state, _load_state, hk]

/-- Length of the stored list after one `add_message` (positive cap). -/
theorem add_message_length (m : Int) (hm : 0 < m) (st : MemStore) (u s role content ts : String) :
    (_load_state (add_message m st u s role content ts) (_get_redis_key u s)).length
      = min ((_load_state st (_get_redis_key u s)).length + 1) (m * 2).toNat := by
  rw [add_message_self]
  set msgs := _load_state st (_get_redis_key u s) ++ [(⟨role, content, ts⟩ : MemMessage)] with hmsgs
  have hlen : msgs.length = (_load_state st (_get_redis_key u s)).length + 1 := by
    simp [hmsgs]
  by_cases h : (msgs.length : Int) > m * 2
  · rw [if_pos h]
    have hneg : ¬ (0 : Int) ≤ -(m * 2) := by omega
    simp only [pyDropSlice, if_neg hneg, List.length_drop]
    omega
  · rw [if_neg h]
    omega

/-- The stored list after one `add_message` is a suffix of the appended list:
trimming only evicts the oldest entries. -/
theorem add_message_suffix (m : Int) (st : MemStore) (u s role content ts : String) :
    _load_state (add_message m st u s role content ts) (_get_redis_key u s)
      <:+ _load_state st (_get_redis_key u s) ++ [⟨role, content, ts⟩] := by
  rw [add_message_self]
  by_cases h : ((_load_state st (_get_redis_key u s) ++ [(⟨role, content, ts⟩ : MemMessage)]).length : Int) > m * 2
  · rw [if_pos h]
    unfold pyDropSlice
    split <;> exact List.drop_suffix _ _
  · rw [if_neg h]

/-- Every key of `applyAppends` keeps the `2 * max_history` bound. -/
theorem applyAppends_bound (m : Int) (hm : 0 < m) (ops : List AppendOp) (st : MemStore)
    (hst : ∀ k, (_load_state st k).length ≤ (m * 2).toNat) :
    ∀ k, (_load_state (applyAppends m ops st) k).length ≤ (m * 2).toNat := by
  induction ops generalizing st with
  | nil => exact hst
  | cons op ops ih =>
    have hstep : ∀ k,
        (_load_state (add_message m st op.user_id op.session_id op.role op.content op.timestamp) k).length
          ≤ (m * 2).toNat := by
      intro k
      by_cases hk : k = _get_redis_key op.user_id op.session_id
      · subst hk
        rw [add_message_length m hm]
        omega
      · rw [add_message_other m st _ _ _ _ _ _ hk]
        exact hst k
    simpa [applyAppends] using ih _ hstep

/-- C4: after any single append the stored history has exactly
`min (previous + 1) (2 × max_history)` entries and is a suffix of the
appended sequence (oldest entries evicted first); and after any sequence of
appends from the empty store, no key's history exceeds `2 × max_history`. -/
theorem claim_C4_history_never_exceeds_cap (max_history : Int) (hm : 0 < max_history) :
    (∀ st u s role content ts,
      (_load_state (add_message max_history st u s role content ts) (_get_redis_key u s)).length
          = min ((_load_state st (_get_redis_key u s)).length + 1) (max_history * 2).toNat ∧
      _load_state (add_message max_history st u s role content ts) (_get_redis_key u s)
          <:+ _load_state st (_get_redis_key u s) ++ [⟨role, content, ts⟩]) ∧
    (∀ ops u s,
      (_load_state (applyAppends max_history ops emptyMemStore) (_get_redis_key u s)).length
          ≤ (max_history * 2).toNat) := by
  constructor
  · intro st u s role content ts
    exact ⟨add_message_length max_history hm st u s role content ts,
      add_message_suffix max_history st u s role content ts⟩
  · intro ops u s
    exact applyAppends_bound max_history hm ops emptyMemStore
      (fun k => by simp [emptyMemStore, _load_state]) _

/-- Witness for C4 at the deployed default `max_history = 10`. -/
theorem claim_C4_witness :
    (0 : Int) < 10 ∧
    ((∀ st u s role content ts,
      (_load_state (add_message 10 st u s role content ts) (_get_redis_key u s)).length
          = min ((_load_state st (_get_redis_key u s)).length + 1) ((10 : Int) * 2).toNat ∧
      _load_state (add_message 10 st u s role content ts) (_get_redis_key u s)
          <:+ _load_state st (_get_redis_key u s) ++ [⟨role, content, ts⟩]) ∧
    (∀ ops u s,
      (_load_state (applyAppends 10 ops emptyMemStore) (_get_redis_key u s)).length
          ≤ ((10 : Int) * 2).toNat)) :=
  ⟨by decide, claim_C4_history_never_exceeds_cap 10 (by decide)⟩

/-! ## Claim C6: clear/history isolation and the composite key -/

/-- Splitting at a separator absent from both left parts is unambiguous. -/
theorem colon_split_inj (sep : Char) :
    ∀ (u₁ : List Char) (s₁ : List Char) (u₂ : List Char) (s₂ : List Char),
      sep ∉ u₁ → sep ∉ u₂ → u₁ ++ sep :: s₁ = u₂ ++ sep :: s₂ → u₁ = u₂ ∧ s₁ = s₂ := by
  intro u₁
  induction u₁ with
  | nil =>
    intro s₁ u₂ s₂ _ h2 h
    cases u₂ with
    | nil => simpa using h
    | cons d ds =>
      simp only [List.nil_append, List.cons_append, List.cons.injEq] at h
      exact absurd (List.mem_cons_self d ds) (h.1 ▸ h2)
  | cons c cs ih =>
    intro s₁ u₂ s₂ h1 h2 h
    cases u₂ with
    | nil =>
      simp only [List.cons_append, List.nil_append, List.cons.injEq] at h
      exact absurd (List.mem_cons_self c cs) (h.1 ▸ h1)
    | cons d ds =>
      simp only [List.cons_append, List.cons.injEq] at h
      have := ih s₁ ds s₂ (fun hc => h1 (List.mem_cons_of_mem c hc))
        (fun hc => h2 (List.mem_cons_of_mem d hc)) h.2
      exact ⟨by simp [h.1, this.1], this.2⟩

/-- Strings with equal character lists are equal. -/
theorem string_toList_inj {a b : String} (h : a.toList = b.toList) : a = b := by
  cases a
  cases b
  simp only [String.toList] at h
  exact congrArg String.mk h

/-- The composite key is injective on user ids that contain no `':'`. -/
theorem redis_key_inj (u₁ s₁ u₂ s₂ : String)
    (h₁ : ':' ∉ u₁.toList) (h₂ : ':' ∉ u₂.toList)
    (h : _get_redis_key u₁ s₁ = _get_redis_key u₂ s₂) : u₁ = u₂ ∧ s₁ = s₂ := by
  have hl : "chatbot:".toList ++ (u₁.toList ++ ':' :: s₁.toList)
      = "chatbot:".toList ++ (u₂.toList ++ ':' :: s₂.toList) := by
    have htl : ∀ a b : String, (a ++ b).toList = a.toList ++ b.toList := fun a b => rfl
    have := congrArg String.toList h
    simpa [_get_redis_key, htl, List.append_assoc] using this
  have := colon_split_inj ':' u₁.toList s₁.toList u₂.toList s₂.toList h₁ h₂
    (List.append_cancel_left hl)
  exact ⟨string_toList_inj this.1, string_toList_inj this.2⟩

/-- C6 (amended): clearing a session empties that session's history; any
session whose composite key differs is untouched; and the composite key is
injective — hence `clear` is invisible to every other session — provided the
user ids contain no `':'` (the separator itself; a user id containing `':'`
can collide with another `(userId, sessionId)` pair, see the
counterexample). -/
theorem claim_C6_amended_clear_isolation (st : MemStore) (u₁ sA u₂ sB : String)
    (h₁ : ':' ∉ u₁.toList) (h₂ : ':' ∉ u₂.toList) (hne : (u₁, sA) ≠ (u₂, sB)) :
    get_history (clear_session st u₁ sA) u₁ sA = [] ∧
    (∀ u s, _get_redis_key u s ≠ _get_redis_key u₁ sA →
      get_history (clear_session st u₁ sA) u s = get_history st u s) ∧
    _get_redis_key u₂ sB ≠ _get_redis_key u₁ sA ∧
    get_history (clear_session st u₁ sA) u₂ sB = get_history st u₂ sB := by
  have hframe : ∀ u s, _get_redis_key u s ≠ _get_redis_key u₁ sA →
      get_history (clear_session st u₁ sA) u s = get_history st u s := by
    intro u s hk
    simp [get_history, clear_session, _load_state, hk]
  have hkey : _get_redis_key u₂ sB ≠ _get_redis_key u₁ sA := by
    intro h
    exact hne (by
      have := redis_key_inj u₂ sB u₁ sA h₂ h₁ h
      simp [this.1, this.2])
  refine ⟨?_, hframe, hkey, hframe u₂ sB hkey⟩
  simp [get_history, clear_session, _load_state]

/-- Witness for C6 (amended) at two colon-free sessions of the same user. -/
theorem claim_C6_witness :
    (':' ∉ "user1".toList ∧ ':' ∉ "user1".toList ∧
      (("user1", "sessA") : String × String) ≠ ("user1", "sessB")) ∧
    (get_history (clear_session emptyMemStore "user1" "sessA") "user1" "sessA" = [] ∧
    (∀ u s, _get_redis_key u s ≠ _get_redis_key "user1" "sessA" →
      get_history (clear_session emptyMemStore "user1" "sessA") u s
        = get_history emptyMemStore u s) ∧
    _get_redis_key "user1" "sessB" ≠ _get_redis_key "user1" "sessA" ∧
    get_history (clear_session emptyMemStore "user1" "sessA") "user1" "sessB"
      = get_history emptyMemStore "user1" "sessB") :=
  ⟨⟨by decide, by decide, by decide⟩,
    claim_C6_amended_clear_isolation emptyMemStore "user1" "sessA" "user1" "sessB"
      (by decide) (by decide) (by decide)⟩

/-- Counterexample to C6 as stated: the composite key does not map distinct
`(userId, sessionId)` pairs to distinct records when an id contains the
separator — `("a:b", "c")` and `("a", "b:c")` share the key, so clearing the
first also clears the second's non-empty history. -/
theorem claim_C6_counterexample :
    _get_redis_key "a:b" "c" = _get_redis_key "a" "b:c" ∧
    (("a:b", "c") : String × String) ≠ ("a", "b:c") ∧
    get_history (add_message 10 emptyMemStore "a" "b:c" "user" "hi" "t0") "a" "b:c" ≠ [] ∧
    get_history
      (clear_session (add_message 10 emptyMemStore "a" "b:c" "user" "hi" "t0") "a:b" "c")
      "a" "b:c" = [] := by
  refine ⟨by decide, by decide, by decide, by decide⟩

/-! ## Claim C1: high-scoring cached Q&A short-circuits the generative model -/

/-- The document test of `rag_answer_node`'s cache scan, as one Boolean:
generated-Q&A type, similarity at least the exact-match threshold, and a
non-empty stored answer. -/
def cacheHitB (doc : Doc) : Bool :=
  decide (dict_get doc.metadata "document_type" = "Generated Q&A") &&
  decide (EXACT_MATCH_THRESHOLD ≤ doc.similarity_score) &&
  decide (dict_get doc.metadata "answer" ≠ "")

/-- The cache scan returns the stored answer of the first document passing
`cacheHitB`. -/
theorem rag_cached_scan_eq_find (l : List Doc) :
    rag_cached_scan l = (l.find? cacheHitB).map fun d => dict_get d.metadata "answer" := by
  induction l with
  | nil => rfl
  | cons d rest ih =>
    by_cases h1 : dict_get d.metadata "document_type" = "Generated Q&A"
        ∧ EXACT_MATCH_THRESHOLD ≤ d.similarity_score
    · by_cases h2 : dict_get d.metadata "answer" ≠ ""
      · have hb : cacheHitB d = true := by
          simp [cacheHitB, h1.1, h1.2, h2]
        rw [List.find?_cons_of_pos _ hb]
        simp [rag_cached_scan, h1, h2]
      · have hb : cacheHitB d = false := by
          simp only [not_not] at h2
          simp [cacheHitB, h2]
        rw [List.find?_cons_of_neg _ (by simp [hb])]
        simp only [not_not] at h2
        simpa [rag_cached_scan, h1, h2] using ih
    · have hb : cacheHitB d = false := by
        rcases not_and_or.mp h1 with h | h <;> simp [cacheHitB, h]
      rw [List.find?_cons_of_neg _ (by simp [hb])]
      have hsplit : ¬ (dict_get d.metadata "document_type" = "Generated Q&A"
          ∧ EXACT_MATCH_THRESHOLD ≤ d.similarity_score) := h1
      simpa [rag_cached_scan, hsplit] using ih

/-- Projections of `ChatbotGraph_execute` when retrieval validates and the
cache scan over the filtered documents hits. -/
theorem execute_cache_hit_proj (classify_intent : String → String)
    (retrieval : String → List Doc) (api : String → ApiOutcome)
    (ingest_outcome : Except String Bool) (threshold : ℚ) (max_history : Int)
    (now : String) (store : MemStore) (query user_id session_id : String) (ans : String)
    (hval : validate_retrieval threshold (retrieval query) = true)
    (hscan : rag_cached_scan (filter_by_threshold threshold (retrieval query)) = some ans) :
    (ChatbotGraph_execute classify_intent retrieval api ingest_outcome threshold
        max_history now store query user_id session_id).1 = _clean_response ans ∧
    (ChatbotGraph_execute classify_intent retrieval api ingest_outcome threshold
        max_history now store query user_id session_id).2.2 = [] := by
  simp [ChatbotGraph_execute, route_node, should_use_rag, retrieve_node, validate_node,
    rag_answer_node, hval, hscan]

/-- C1 (amended): when the filtered retrieval results contain a generated-Q&A
item with similarity `≥ EXACT_MATCH_THRESHOLD` and a non-empty stored answer,
the pipeline answers from the cache: the first such item's stored answer is
returned (after the final sanitation pass `_clean_response`) and no call to
the generative model — indeed no external effect at all — is made. -/
theorem claim_C1_amended_cache_short_circuit (classify_intent : String → String)
    (retrieval : String → List Doc) (api : String → ApiOutcome)
    (ingest_outcome : Except String Bool) (max_history : Int)
    (now : String) (store : MemStore) (query user_id session_id : String)
    (h : ∃ d ∈ filter_by_threshold RAGChatbot_similarity_threshold (retrieval query),
          dict_get d.metadata "document_type" = "Generated Q&A" ∧
          EXACT_MATCH_THRESHOLD ≤ d.similarity_score ∧
          dict_get d.metadata "answer" ≠ "") :
    ∃ d, (filter_by_threshold RAGChatbot_similarity_threshold (retrieval query)).find? cacheHitB
          = some d ∧
      (ChatbotGraph_execute classify_intent retrieval api ingest_outcome
          RAGChatbot_similarity_threshold max_history now store query user_id session_id).1
        = _clean_response (dict_get d.metadata "answer") ∧
      (ChatbotGraph_execute classify_intent retrieval api ingest_outcome
          RAGChatbot_similarity_threshold max_history now store query user_id session_id).2.2
        = [] := by
  obtain ⟨d₀, hmem, hd₀⟩ := h
  have hb : cacheHitB d₀ = true := by
    simp [cacheHitB, hd₀.1, hd₀.2.1, hd₀.2.2]
  obtain ⟨d, hd⟩ := Option.isSome_iff_exists.mp
    (List.find?_isSome.mpr ⟨d₀, hmem, hb⟩)
  have hval : validate_retrieval RAGChatbot_similarity_threshold (retrieval query) = true := by
    simp only [validate_retrieval, decide_eq_true_eq]
    have hmem' : d₀ ∈ filter_by_threshold RAGChatbot_similarity_threshold (retrieval query) :=
      hmem
    exact List.length_pos.mpr (List.ne_nil_of_mem hmem')
  have hscan : rag_cached_scan
      (filter_by_threshold RAGChatbot_similarity_threshold (retrieval query))
        = some (dict_get d.metadata "answer") := by
    rw [rag_cached_scan_eq_find, hd]
    rfl
  exact ⟨d, hd, execute_cache_hit_proj classify_intent retrieval api ingest_outcome
    RAGChatbot_similarity_threshold max_history now store query user_id session_id
    (dict_get d.metadata "answer") hval hscan⟩

/-- Concrete cached document for the C1 witness. -/
def c1WitnessDoc : Doc :=
  { content := "Question: q\n\nAnswer: CACHED",
    metadata := [("document_type", "Generated Q&A"), ("answer", "CACHED")],
    similarity_score := mkRat 95 100 }

/-- Witness for C1 (amended): a 0.95-scoring cached Q&A document makes the
pipeline return its stored answer with an empty effect trace. -/
theorem claim_C1_witness :
    (∃ d ∈ filter_by_threshold RAGChatbot_similarity_threshold
        ((fun _ => [c1WitnessDoc]) "q"),
      dict_get d.metadata "document_type" = "Generated Q&A" ∧
      EXACT_MATCH_THRESHOLD ≤ d.similarity_score ∧
      dict_get d.metadata "answer" ≠ "") ∧
    (∃ d, (filter_by_threshold RAGChatbot_similarity_threshold
          ((fun _ => [c1WitnessDoc]) "q")).find? cacheHitB = some d ∧
      (ChatbotGraph_execute (fun _ => "COMPANY_INTERNSHIP") (fun _ => [c1WitnessDoc])
          (fun _ => .okText "LLM") (.ok true) RAGChatbot_similarity_threshold
          MAX_CONVERSATION_HISTORY "t0" emptyMemStore "q" "u" "s").1
        = _clean_response (dict_get d.metadata "answer") ∧
      (ChatbotGraph_execute (fun _ => "COMPANY_INTERNSHIP") (fun _ => [c1WitnessDoc])
          (fun _ => .okText "LLM") (.ok true) RAGChatbot_similarity_threshold
          MAX_CONVERSATION_HISTORY "t0" emptyMemStore "q" "u" "s").2.2 = []) :=
  ⟨by decide,
    claim_C1_amended_cache_short_circuit (fun _ => "COMPANY_INTERNSHIP")
      (fun _ => [c1WitnessDoc]) (fun _ => .okText "LLM") (.ok true)
      MAX_CONVERSATION_HISTORY "t0" emptyMemStore "q" "u" "s" (by decide)⟩

/-- Concrete document for the C1 counterexample: a generated-Q&A item above
the exact-match threshold whose stored answer is empty. -/
def c1CexDoc : Doc :=
  { content := "Question: q\n\nAnswer:",
    metadata := [("document_type", "Generated Q&A"), ("answer", "")],
    similarity_score := mkRat 95 100 }

/-- Counterexample to C1 as stated: the filtered results contain a
generated-Q&A item scoring `0.95 ≥ 0.90`, yet the pipeline calls the
generative model and does not return that item's stored answer — the scan
skips a cached item whose stored answer is empty. -/
theorem claim_C1_counterexample :
    (∃ d ∈ filter_by_threshold RAGChatbot_similarity_threshold [c1CexDoc],
      dict_get d.metadata "document_type" = "Generated Q&A" ∧
      EXACT_MATCH_THRESHOLD ≤ d.similarity_score) ∧
    (ChatbotGraph_execute (fun _ => "COMPANY_INTERNSHIP") (fun _ => [c1CexDoc])
        (fun _ => .okText "LLMANSWER") (.ok true) RAGChatbot_similarity_threshold
        MAX_CONVERSATION_HISTORY "t0" emptyMemStore "q1" "u1" "s1").2.2.any isLlmCall = true ∧
    (ChatbotGraph_execute (fun _ => "COMPANY_INTERNSHIP") (fun _ => [c1CexDoc])
        (fun _ => .okText "LLMANSWER") (.ok true) RAGChatbot_similarity_threshold
        MAX_CONVERSATION_HISTORY "t0" emptyMemStore "q1" "u1" "s1").1
      ≠ dict_get c1CexDoc.metadata "answer" := by
  refine ⟨by decide, by decide, by decide⟩

/-! ## Claim C2: low-confidence retrieval takes the external path and ingests once -/

/-- Projections of `ChatbotGraph_execute` when no retrieved document
validates: the external-knowledge path runs — one history-only generative
call, then exactly one auto-ingest invocation with the question/answer
pair. -/
theorem execute_invalid_proj (classify_intent : String → String)
    (retrieval : String → List Doc) (api : String → ApiOutcome)
    (ingest_outcome : Except String Bool) (threshold : ℚ) (max_history : Int)
    (now : String) (store : MemStore) (query user_id session_id : String)
    (hval : validate_retrieval threshold (retrieval query) = false) :
    (ChatbotGraph_execute classify_intent retrieval api ingest_outcome threshold
        max_history now store query user_id session_id).1
      = _clean_response (_call_api (api (generate_response_prompt query
          (get_formatted_history store user_id session_id)))) ∧
    (ChatbotGraph_execute classify_intent retrieval api ingest_outcome threshold
        max_history now store query user_id session_id).2.2
      = [Effect.llmCall (generate_response_prompt query
            (get_formatted_history store user_id session_id)),
         Effect.ingestCall query (_call_api (api (generate_response_prompt query
            (get_formatted_history store user_id session_id))))] := by
  simp [ChatbotGraph_execute, route_node, should_use_rag, retrieve_node, validate_node,
    rag_answer_node, external_knowledge_node, hval]

/-- C2: when no retrieved item reaches the low threshold, the pipeline takes
the external/generative branch — the generative call's prompt is built from
the conversation history only (`generate_response_prompt`, no retrieved
context) — the auto-ingestor is invoked exactly once, with the
question/answer pair, and the outcome of that ingestion (success, failure or
exception) leaves the run's result unchanged. -/
theorem claim_C2_external_branch_ingests_once (classify_intent : String → String)
    (retrieval : String → List Doc) (api : String → ApiOutcome)
    (ingest_outcome : Except String Bool) (max_history : Int)
    (now : String) (store : MemStore) (query user_id session_id : String)
    (h : ∀ d ∈ retrieval query, d.similarity_score < RAGChatbot_similarity_threshold) :
    (ChatbotGraph_execute classify_intent retrieval api ingest_outcome
        RAGChatbot_similarity_threshold max_history now store query user_id session_id).2.2
      = [Effect.llmCall (generate_response_prompt query
            (get_formatted_history store user_id session_id)),
         Effect.ingestCall query (_call_api (api (generate_response_prompt query
            (get_formatted_history store user_id session_id))))] ∧
    (ChatbotGraph_execute classify_intent retrieval api ingest_outcome
        RAGChatbot_similarity_threshold max_history now store query user_id
        session_id).2.2.countP isIngestCall = 1 ∧
    (ChatbotGraph_execute classify_intent retrieval api ingest_outcome
        RAGChatbot_similarity_threshold max_history now store query user_id session_id).1
      = _clean_response (_call_api (api (generate_response_prompt query
          (get_formatted_history store user_id session_id)))) ∧
    (∀ ingest_outcome₂,
      ChatbotGraph_execute classify_intent retrieval api ingest_outcome₂
          RAGChatbot_similarity_threshold max_history now store query user_id session_id
        = ChatbotGraph_execute classify_intent retrieval api ingest_outcome
            RAGChatbot_similarity_threshold max_history now store query user_id session_id) := by
  have hval : validate_retrieval RAGChatbot_similarity_threshold (retrieval query) = false := by
    simp only [validate_retrieval, decide_eq_false_iff_not, not_lt, Nat.le_zero,
      List.length_eq_zero]
    simp only [filter_by_threshold, List.filter_eq_nil_iff, decide_eq_true_eq]
    intro d hd
    exact not_le.mpr (h d hd)
  have hproj := execute_invalid_proj classify_intent retrieval api ingest_outcome
    RAGChatbot_similarity_threshold max_history now store query user_id session_id hval
  refine ⟨hproj.2, ?_, hproj.1, fun _ => rfl⟩
  rw [hproj.2]
  rfl

/-- Concrete low-scoring document for the C2 witness. -/
def c2WitnessDoc : Doc :=
  { content := "some unrelated paragraph",
    metadata := [("document_type", "FAQ"), ("company", "Google")],
    similarity_score := mkRat 30 100 }

/-- Witness for C2: one 0.30-scoring document forces the external branch. -/
theorem claim_C2_witness :
    (∀ d ∈ (fun _ : String => [c2WitnessDoc]) "q2",
      d.similarity_score < RAGChatbot_similarity_threshold) ∧
    ((ChatbotGraph_execute (fun _ => "GENERAL_EDUCATION") (fun _ => [c2WitnessDoc])
        (fun _ => .okText "GEN") (.error "qdrant down") RAGChatbot_similarity_threshold
        MAX_CONVERSATION_HISTORY "t0" emptyMemStore "q2" "u2" "s2").2.2
      = [Effect.llmCall (generate_response_prompt "q2"
            (get_formatted_history emptyMemStore "u2" "s2")),
         Effect.ingestCall "q2" (_call_api ((fun _ => .okText "GEN")
            (generate_response_prompt "q2"
              (get_formatted_history emptyMemStore "u2" "s2"))))] ∧
    (ChatbotGraph_execute (fun _ => "GENERAL_EDUCATION") (fun _ => [c2WitnessDoc])
        (fun _ => .okText "GEN") (.error "qdrant down") RAGChatbot_similarity_threshold
        MAX_CONVERSATION_HISTORY "t0" emptyMemStore "q2" "u2"
        "s2").2.2.countP isIngestCall = 1 ∧
    (ChatbotGraph_execute (fun _ => "GENERAL_EDUCATION") (fun _ => [c2WitnessDoc])
        (fun _ => .okText "GEN") (.error "qdrant down") RAGChatbot_similarity_threshold
        MAX_CONVERSATION_HISTORY "t0" emptyMemStore "q2" "u2" "s2").1
      = _clean_response (_call_api ((fun _ => .okText "GEN")
          (generate_response_prompt "q2"
            (get_formatted_history emptyMemStore "u2" "s2")))) ∧
    (∀ ingest_outcome₂,
      ChatbotGraph_execute (fun _ => "GENERAL_EDUCATION") (fun _ => [c2WitnessDoc])
          (fun _ => .okText "GEN") ingest_outcome₂ RAGChatbot_similarity_threshold
          MAX_CONVERSATION_HISTORY "t0" emptyMemStore "q2" "u2" "s2"
        = ChatbotGraph_execute (fun _ => "GENERAL_EDUCATION") (fun _ => [c2WitnessDoc])
            (fun _ => .okText "GEN") (.error "qdrant down") RAGChatbot_similarity_threshold
            MAX_CONVERSATION_HISTORY "t0" emptyMemStore "q2" "u2" "s2")) :=
  ⟨by decide,
    claim_C2_external_branch_ingests_once (fun _ => "GENERAL_EDUCATION")
      (fun _ => [c2WitnessDoc]) (fun _ => .okText "GEN") (.error "qdrant down")
      MAX_CONVERSATION_HISTORY "t0" emptyMemStore "q2" "u2" "s2" (by decide)⟩

/-! ## Claim C9: the two named thresholds and what they gate -/

/-- C9: the deployed Score Validator threshold is `0.50` (the config value
`SIMILARITY_THRESHOLD` wired in by `RAGChatbot`) and the exact-match
threshold is `0.90`; the former is exactly the gate deciding whether any
retrieved document validates (whether the RAG branch may answer at all), the
latter — together with the generated-Q&A type and a non-empty stored
answer — exactly the gate for returning a cached answer verbatim. -/
theorem claim_C9_threshold_defaults :
    RAGChatbot_similarity_threshold = 1/2 ∧
    EXACT_MATCH_THRESHOLD = 9/10 ∧
    (∀ docs, validate_retrieval RAGChatbot_similarity_threshold docs
        = docs.any fun d => decide (RAGChatbot_similarity_threshold ≤ d.similarity_score)) ∧
    (∀ d, rag_cached_scan [d]
        = if dict_get d.metadata "document_type" = "Generated Q&A"
              ∧ EXACT_MATCH_THRESHOLD ≤ d.similarity_score
              ∧ dict_get d.metadata "answer" ≠ ""
          then some (dict_get d.metadata "answer") else none) := by
  refine ⟨?_, ?_, ?_, ?_⟩
  · norm_num [RAGChatbot_similarity_threshold, get_config_similarity_threshold,
      SIMILARITY_THRESHOLD]
  · norm_num [EXACT_MATCH_THRESHOLD]
  · intro docs
    rw [Bool.eq_iff_iff]
    simp only [validate_retrieval, decide_eq_true_eq, List.any_eq_true, decide_eq_true_eq,
      filter_by_threshold]
    rw [List.length_pos, Ne, List.filter_eq_nil_iff]
    push_neg
    simp
  · intro d
    by_cases h1 : dict_get d.metadata "document_type" = "Generated Q&A"
        ∧ EXACT_MATCH_THRESHOLD ≤ d.similarity_score
    · by_cases h2 : dict_get d.metadata "answer" ≠ ""
      · simp [rag_cached_scan, h1, h2, h1.1, h1.2]
      · simp only [not_not] at h2
        simp [rag_cached_scan, h1, h2]
    · have : ¬ (dict_get d.metadata "document_type" = "Generated Q&A"
          ∧ EXACT_MATCH_THRESHOLD ≤ d.similarity_score
          ∧ dict_get d.metadata "answer" ≠ "") := by tauto
      simp [rag_cached_scan, h1, this]

/-! ## Claim C5: SSE event ordering -/

/-- Every element of `chunkEvents` is a `chunk` event. -/
theorem chunkEvents_mem {r : String} {e : SseEvent} (he : e ∈ chunkEvents r) :
    ∃ c, e = SseEvent.chunk c := by
  simp only [chunkEvents, List.mem_map] at he
  obtain ⟨c, _, rfl⟩ := he
  exact ⟨c, rfl⟩

/-- A predicate false on every `chunk` event counts zero over `chunkEvents`. -/
theorem countP_chunkEvents_eq_zero (r : String) (p : SseEvent → Bool)
    (hp : ∀ c, p (SseEvent.chunk c) = false) : (chunkEvents r).countP p = 0 := by
  rw [List.countP_eq_zero]
  intro e he
  obtain ⟨c, rfl⟩ := chunkEvents_mem he
  simp [hp]

/-- `dropLast` of a cons is contained in the head plus the tail's `dropLast`. -/
theorem mem_dropLast_cons {e a : α} {l : List α} (h : e ∈ (a :: l).dropLast) :
    e = a ∨ e ∈ l.dropLast := by
  cases l with
  | nil => simp at h
  | cons b bs =>
    rw [List.dropLast_cons₂] at h
    rcases List.mem_cons.mp h with h | h
    · exact Or.inl h
    · exact Or.inr h

/-- The polling loop emits no `start` event. -/
theorem sseLoop_no_start :
    ∀ (polls : List (Option WorkerResult)) (fq : Option WorkerResult) (k : Nat),
      (sseLoop k polls fq).countP isStart = 0 := by
  intro polls
  induction polls with
  | nil =>
    intro fq k
    match fq with
    | none => rfl
    | some (.success r) =>
      by_cases hr : r ≠ ""
      · simp only [sseLoop, if_pos hr, List.countP_append]
        rw [countP_chunkEvents_eq_zero r isStart fun c => rfl]
        rfl
      · simp [sseLoop, hr]
    | some (.errorRes msg) => rfl
  | cons p rest ih =>
    intro fq k
    match p with
    | none =>
      by_cases hk : k + 1 ≤ 15
      · simp only [sseLoop, if_pos hk, List.countP_cons]
        rw [ih fq (k + 1)]
        rfl
      · simp [sseLoop, hk, isStart]
    | some (.errorRes msg) => rfl
    | some (.success r) =>
      by_cases hr : r ≠ "" ∧ pyStripStr r ≠ ""
      · simp only [sseLoop, if_pos hr, List.countP_append]
        rw [countP_chunkEvents_eq_zero r isStart fun c => rfl]
        rfl
      · simp only [sseLoop, if_neg hr]
        rfl

/-- The polling loop emits at most `15 - keepalive_count` keepalives. -/
theorem sseLoop_keepalive_bound :
    ∀ (polls : List (Option WorkerResult)) (fq : Option WorkerResult) (k : Nat),
      (sseLoop k polls fq).countP isKeepalive ≤ 15 - k := by
  intro polls
  induction polls with
  | nil =>
    intro fq k
    match fq with
    | none => simp [sseLoop]
    | some (.success r) =>
      by_cases hr : r ≠ ""
      · simp only [sseLoop, if_pos hr, List.countP_append]
        rw [countP_chunkEvents_eq_zero r isKeepalive fun c => rfl]
        simp [isKeepalive]
      · simp [sseLoop, hr]
    | some (.errorRes msg) => simp [sseLoop, isKeepalive]
  | cons p rest ih =>
    intro fq k
    match p with
    | none =>
      by_cases hk : k + 1 ≤ 15
      · have hk14 : k ≤ 14 := by omega
        have hstep : (sseLoop k (none :: rest) fq).countP isKeepalive
            = (sseLoop (k + 1) rest fq).countP isKeepalive + 1 := by
          simp [sseLoop, hk14, List.countP_cons, isKeepalive]
        have := ih fq (k + 1)
        omega
      · simp [sseLoop, hk, isKeepalive]
    | some (.errorRes msg) => simp [sseLoop, isKeepalive]
    | some (.success r) =>
      by_cases hr : r ≠ "" ∧ pyStripStr r ≠ ""
      · simp only [sseLoop, if_pos hr, List.countP_append]
        rw [countP_chunkEvents_eq_zero r isKeepalive fun c => rfl]
        simp [isKeepalive]
      · simp only [sseLoop, if_neg hr]
        simp [isKeepalive]

/-- Within the polling loop's output, terminal events occur only in the last
position. -/
theorem sseLoop_terminal_only_last :
    ∀ (polls : List (Option WorkerResult)) (fq : Option WorkerResult) (k : Nat)
      (e : SseEvent), e ∈ (sseLoop k polls fq).dropLast → isTerminal e = false := by
  intro polls
  induction polls with
  | nil =>
    intro fq k e he
    match fq with
    | none => simp [sseLoop] at he
    | some (.success r) =>
      by_cases hr : r ≠ ""
      · simp only [sseLoop, if_pos hr, List.dropLast_concat] at he
        obtain ⟨c, rfl⟩ := chunkEvents_mem he
        rfl
      · simp [sseLoop, hr] at he
    | some (.errorRes msg) => simp [sseLoop] at he
  | cons p rest ih =>
    intro fq k e he
    match p with
    | none =>
      by_cases hk : k + 1 ≤ 15
      · simp only [sseLoop, if_pos hk] at he
        rcases mem_dropLast_cons he with rfl | he
        · rfl
        · exact ih fq (k + 1) e he
      · simp [sseLoop, hk] at he
    | some (.errorRes msg) => simp [sseLoop] at he
    | some (.success r) =>
      simp only [sseLoop, List.dropLast_concat] at he
      by_cases hr : r ≠ "" ∧ pyStripStr r ≠ ""
      · rw [if_pos hr] at he
        obtain ⟨c, rfl⟩ := chunkEvents_mem he
        rfl
      · rw [if_neg hr] at he
        simp at he
        subst he
        rfl

/-- After sixteen consecutive empty polls the loop has emitted its fifteen
keepalives and ends with the timeout error, whatever would come later. -/
theorem sseLoop_timeout :
    ∀ (n k : Nat) (rest : List (Option WorkerResult)) (fq : Option WorkerResult),
      k + n = 16 → 1 ≤ n →
      sseLoop k (List.replicate n none ++ rest) fq
        = List.replicate (15 - k) SseEvent.keepalive ++ [SseEvent.error sseTimeoutMsg] := by
  intro n
  induction n with
  | zero => omega
  | succ n ih =>
    intro k rest fq hk _
    by_cases hn : n = 0
    · subst hn
      have hk15 : k = 15 := by omega
      subst hk15
      simp [sseLoop]
    · have h15 : k + 1 ≤ 15 := by omega
      have hk14 : k ≤ 14 := by omega
      have hstep : sseLoop k (List.replicate (n + 1) none ++ rest) fq
          = SseEvent.keepalive :: sseLoop (k + 1) (List.replicate n none ++ rest) fq := by
        simp [List.replicate_succ, sseLoop, hk14]
      rw [hstep, ih (k + 1) rest fq (by omega) (by omega)]
      have h : 15 - k = (15 - (k + 1)) + 1 := by omega
      rw [h, List.replicate_succ]
      rfl

/-- C5 (amended): every stream starts with exactly one `start` event, emits
at most 15 keepalives, and emits terminal events (`done`/`error`) only in the
final position (hence at most one, with nothing after one); after 16
consecutive empty polls the stream is exactly `start`, 15 keepalives, and the
timeout error, whatever the worker still does; and a worker success observed
at the first poll whose text survives chunking yields exactly `start`, one or
more `chunk` events, `done`.  (The post-loop delivery path can end the stream
with no terminal event at all — see the counterexample — so "exactly one
terminal event" does not hold on every path.) -/
theorem claim_C5_amended_sse_ordering :
    (∀ polls fq, (generate_sse_response polls fq).head? = some SseEvent.start) ∧
    (∀ polls fq, (generate_sse_response polls fq).countP isStart = 1) ∧
    (∀ polls fq, (generate_sse_response polls fq).countP isKeepalive ≤ 15) ∧
    (∀ polls fq e, e ∈ (generate_sse_response polls fq).dropLast → isTerminal e = false) ∧
    (∀ rest fq, generate_sse_response (List.replicate 16 none ++ rest) fq
        = SseEvent.start ::
            (List.replicate 15 SseEvent.keepalive ++ [SseEvent.error sseTimeoutMsg])) ∧
    (∀ r fq, pyStripStr r ≠ "" → chunk_text r 30 ≠ [] →
      generate_sse_response [some (.success r)] fq
          = SseEvent.start :: ((chunk_text r 30).map SseEvent.chunk ++ [SseEvent.done]) ∧
        (chunk_text r 30).map SseEvent.chunk ≠ []) := by
  refine ⟨?_, ?_, ?_, ?_, ?_, ?_⟩
  · intro polls fq
    rfl
  · intro polls fq
    simp only [generate_sse_response, List.countP_cons]
    rw [sseLoop_no_start polls fq 0]
    rfl
  · intro polls fq
    have hloop := sseLoop_keepalive_bound polls fq 0
    have hcons : (generate_sse_response polls fq).countP isKeepalive
        = (sseLoop 0 polls fq).countP isKeepalive := by
      simp [generate_sse_response, List.countP_cons, isKeepalive]
    omega
  · intro polls fq e he
    rcases mem_dropLast_cons he with rfl | he
    · rfl
    · exact sseLoop_terminal_only_last polls fq 0 e he
  · intro rest fq
    simp only [generate_sse_response]
    rw [sseLoop_timeout 16 0 rest fq rfl (by omega)]
  · intro r fq h1 h2
    have hr : r ≠ "" := by
      intro hr
      subst hr
      exact h1 rfl
    constructor
    · simp [generate_sse_response, sseLoop, hr, h1, chunkEvents]
    · simpa using h2

/-- Witness for C5 (amended): a worker returning `"Hello."` at the first poll
streams `start`, one chunk, `done`. -/
theorem claim_C5_witness :
    (pyStripStr "Hello." ≠ "" ∧ chunk_text "Hello." 30 ≠ []) ∧
    (generate_sse_response [some (.success "Hello.")] none
        = SseEvent.start :: ((chunk_text "Hello." 30).map SseEvent.chunk ++ [SseEvent.done]) ∧
      (chunk_text "Hello." 30).map SseEvent.chunk ≠ []) :=
  ⟨⟨by decide, by decide⟩,
    claim_C5_amended_sse_ordering.2.2.2.2.2 "Hello." none (by decide) (by decide)⟩

/-- Counterexample to C5 as stated: a worker that finishes (with an empty
result string) before the dispatcher's first liveness check produces the
event sequence `[start]` — no terminal event at all, refuting "ends with
exactly one terminal event (done or error)". -/
theorem claim_C5_counterexample :
    generate_sse_response [] (some (.success "")) = [SseEvent.start] ∧
    (generate_sse_response [] (some (.success ""))).countP isTerminal = 0 := by
  refine ⟨by decide, by decide⟩

/-! ## Claim C8: failure modes map to distinct non-empty text; sanitation -/

/-- The apology strings for the five failure modes the claim names:
timeout, HTTP error, missing candidates, safety block, empty text. -/
def gemini_failure_messages : List String :=
  [_call_api .timeout,
   _call_api (.httpError 500 "Internal Server Error"),
   _call_api .noCandidates,
   _call_api (.noParts "SAFETY"),
   _call_api (.okText "")]

/-- C8 (amended): each named failure mode of the generative call (timeout,
HTTP error, missing candidates, safety block, empty text) is mapped to a
distinct, non-empty apology string, and the final sanitation pass leaves each
of these strings unchanged — so every generative-failure answer reaches the
user non-empty.  (The sanitation pass does not preserve non-emptiness in
general: see the counterexample.) -/
theorem claim_C8_amended_failure_strings :
    gemini_failure_messages.Nodup ∧
    ∀ m ∈ gemini_failure_messages, m ≠ "" ∧ _clean_response m = m := by
  refine ⟨by decide, by decide⟩

/-- Counterexample to C8 as stated: the final sanitation pass reduces a
non-empty answer consisting of an internal-label line to the empty string,
refuting "the final sanitation pass never reduces the returned answer to the
empty string". -/
theorem claim_C8_counterexample :
    "Intent: internship query" ≠ "" ∧
    _clean_response "Intent: internship query" = "" := by
  refine ⟨by decide, by decide⟩
